import Mathlib

/-!
# Verification of `graph_mail_sender.py`

Shallow embedding of the Graph mail sender script: credential validation,
token acquisition, attachment encoding (Base64), payload building, mail
submission, and the top-level exception-handling entry point, together with
proofs of the specified properties.

Python strings are `String`, bytes are `List Nat` (each `< 256`), JSON-like
values are the inductive `Jv`, dictionaries are ordered association lists
(Python dicts preserve insertion order), exceptions are `Except` errors.
-/

namespace GraphMailSender

/-- Single-quote character (Python string repr delimiter), by code point. -/
def sqChar : Char := Char.ofNat 39

/-- Single-quote as a string. -/
def sq : String := String.singleton sqChar

/-- Model of a parsed JSON value as Python would hold it after `json` parsing:
strings, integers, booleans, `None`, lists, and (ordered) dicts. -/
inductive Jv where
  | str (s : String)
  | num (n : Int)
  | bool (b : Bool)
  | null
  | arr (xs : List Jv)
  | obj (kvs : List (String × Jv))

/-- Model of Python `", ".join(l)`. -/
def joinComma : List String → String
  | [] => ""
  | [x] => x
  | x :: xs => x ++ ", " ++ joinComma xs

mutual

/-- Model of Python `str()` on a JSON-parsed value (as interpolated by an
f-string): strings repr with single quotes, `True`/`False`/`None`,
lists in brackets, dicts in braces. -/
def pyStr : Jv → String
  | .str s => sq ++ s ++ sq
  | .num n => toString n
  | .bool true => "True"
  | .bool false => "False"
  | .null => "None"
  | .arr xs => "[" ++ pyStrList xs ++ "]"
  | .obj kvs => "\x7b" ++ pyStrObj kvs ++ "\x7d"

/-- Elements of a Python list, comma-joined. -/
def pyStrList : List Jv → String
  | [] => ""
  | [x] => pyStr x
  | x :: xs => pyStr x ++ ", " ++ pyStrList xs

/-- Entries of a Python dict, comma-joined, keys repr-quoted. -/
def pyStrObj : List (String × Jv) → String
  | [] => ""
  | [(k, v)] => sq ++ k ++ sq ++ ": " ++ pyStr v
  | (k, v) :: kvs => sq ++ k ++ sq ++ ": " ++ pyStr v ++ ", " ++ pyStrObj kvs

end

/-- Model of Python `str()` on an optional string (`dict.get` result in an
f-string): the string itself, or `None` when absent. -/
def pyStrOpt : Option String → String
  | some s => s
  | none => "None"

/-! ## Base64 (model of `base64.b64encode` / `base64.b64decode`) -/

/-- The standard Base64 alphabet. -/
def b64table : List Char :=
  ['A', 'B', 'C', 'D', 'E', 'F', 'G', 'H', 'I', 'J', 'K', 'L', 'M',
   'N', 'O', 'P', 'Q', 'R', 'S', 'T', 'U', 'V', 'W', 'X', 'Y', 'Z',
   'a', 'b', 'c', 'd', 'e', 'f', 'g', 'h', 'i', 'j', 'k', 'l', 'm',
   'n', 'o', 'p', 'q', 'r', 's', 't', 'u', 'v', 'w', 'x', 'y', 'z',
   '0', '1', '2', '3', '4', '5', '6', '7', '8', '9', '+', '/']

/-- Character of the Base64 alphabet at index `n` (for `n < 64`). -/
def b64char (n : Nat) : Char := b64table.getD n 'A'

/-- Index search with an accumulator, used to model alphabet lookup. -/
def b64indexAux : List Char → Nat → Char → Option Nat
  | [], _, _ => none
  | x :: xs, i, c => if x = c then some i else b64indexAux xs (i + 1) c

/-- Index of a character in the Base64 alphabet, `none` when absent. -/
def b64index (c : Char) : Option Nat := b64indexAux b64table 0 c

/-- Model of `base64.b64encode` on a byte list: 3 bytes become 4 alphabet
characters; a final group of 1 or 2 bytes is padded with `=`. -/
def b64encode : List Nat → List Char
  | [] => []
  | [b1] => [b64char (b1 / 4), b64char (b1 % 4 * 16), '=', '=']
  | [b1, b2] =>
      [b64char (b1 / 4), b64char (b1 % 4 * 16 + b2 / 16), b64char (b2 % 16 * 4), '=']
  | b1 :: b2 :: b3 :: rest =>
      b64char (b1 / 4) :: b64char (b1 % 4 * 16 + b2 / 16) ::
      b64char (b2 % 16 * 4 + b3 / 64) :: b64char (b3 % 64) :: b64encode rest

/-- Model of `base64.b64decode`: groups of 4 characters decode to 3 bytes,
with `=`-padding allowed only in a final group. -/
def b64decode : List Char → Option (List Nat)
  | [] => some []
  | c1 :: c2 :: c3 :: c4 :: rest =>
      match b64index c1, b64index c2 with
      | some n1, some n2 =>
        if c3 = '=' then
          if c4 = '=' ∧ rest = [] then some [n1 * 4 + n2 / 16] else none
        else
          match b64index c3 with
          | some n3 =>
            if c4 = '=' then
              if rest = [] then some [n1 * 4 + n2 / 16, n2 % 16 * 16 + n3 / 4] else none
            else
              match b64index c4, b64decode rest with
              | some n4, some bs =>
                  some ((n1 * 4 + n2 / 16) :: (n2 % 16 * 16 + n3 / 4) ::
                    (n3 % 4 * 64 + n4) :: bs)
              | _, _ => none
          | none => none
      | _, _ => none
  | _ => none

theorem b64index_b64char : ∀ n, n < 64 → b64index (b64char n) = some n := by decide

theorem b64char_ne_pad : ∀ n, n < 64 → b64char n ≠ '=' := by decide

/-- Base64 round-trip: decoding an encoding of well-formed bytes gives the
bytes back. -/
theorem b64decode_b64encode (bs : List Nat) (h : ∀ b ∈ bs, b < 256) :
    b64decode (b64encode bs) = some bs := by
  induction bs using b64encode.induct with
  | case1 => rfl
  | case2 b1 =>
    have hb1 : b1 < 256 := h b1 (by simp)
    have e1 : b1 / 4 * 4 + b1 % 4 * 16 / 16 = b1 := by omega
    simp [b64encode, b64decode,
      b64index_b64char (b1 / 4) (by omega),
      b64index_b64char (b1 % 4 * 16) (by omega)]
    all_goals omega
  | case3 b1 b2 =>
    have hb1 : b1 < 256 := h b1 (by simp)
    have hb2 : b2 < 256 := h b2 (by simp)
    have hne := b64char_ne_pad (b2 % 16 * 4) (by omega)
    have e1 : b1 / 4 * 4 + (b1 % 4 * 16 + b2 / 16) / 16 = b1 := by omega
    have e2 : (b1 % 4 * 16 + b2 / 16) % 16 * 16 + b2 % 16 * 4 / 4 = b2 := by omega
    simp [b64encode, b64decode,
      b64index_b64char (b1 / 4) (by omega),
      b64index_b64char (b1 % 4 * 16 + b2 / 16) (by omega),
      b64index_b64char (b2 % 16 * 4) (by omega), hne]
    all_goals omega
  | case4 b1 b2 b3 rest ih =>
    have hb1 : b1 < 256 := h b1 (by simp)
    have hb2 : b2 < 256 := h b2 (by simp)
    have hb3 : b3 < 256 := h b3 (by simp)
    have hrest : ∀ b ∈ rest, b < 256 := fun b hb => h b (by simp [hb])
    have hne3 := b64char_ne_pad (b2 % 16 * 4 + b3 / 64) (by omega)
    have hne4 := b64char_ne_pad (b3 % 64) (by omega)
    have e1 : b1 / 4 * 4 + (b1 % 4 * 16 + b2 / 16) / 16 = b1 := by omega
    have e2 : (b1 % 4 * 16 + b2 / 16) % 16 * 16 + (b2 % 16 * 4 + b3 / 64) / 4 = b2 := by
      omega
    have e3 : (b2 % 16 * 4 + b3 / 64) % 4 * 64 + b3 % 64 = b3 := by omega
    simp [b64encode, b64decode,
      b64index_b64char (b1 / 4) (by omega),
      b64index_b64char (b1 % 4 * 16 + b2 / 16) (by omega),
      b64index_b64char (b2 % 16 * 4 + b3 / 64) (by omega),
      b64index_b64char (b3 % 64) (by omega),
      hne3, hne4, ih hrest]
    all_goals omega

/-! ## String infix helpers -/

theorem strData_append (a b : String) : (a ++ b).data = a.data ++ b.data := by
  obtain ⟨la⟩ := a
  obtain ⟨lb⟩ := b
  rfl

/-- A member of a list of strings occurs inside their comma-join. -/
theorem infix_of_mem_joinComma :
    ∀ (l : List String) (x : String), x ∈ l → x.data <:+: (joinComma l).data := by
  intro l
  induction l with
  | nil => intro x hx; cases hx
  | cons y ys ih =>
    intro x hx
    cases ys with
    | nil =>
      have hxy : x = y := by simpa using hx
      subst hxy
      exact List.infix_rfl
    | cons z zs =>
      rcases List.mem_cons.mp hx with h | h
      · subst h
        exact ⟨[], (", " ++ joinComma (z :: zs)).data, by simp [joinComma, strData_append]⟩
      · have hin := ih x h
        have hstep : (joinComma (z :: zs)).data <:+: (joinComma (y :: z :: zs)).data :=
          ⟨(y ++ ", ").data, [], by simp [joinComma, strData_append]⟩
        exact hin.trans hstep

/-! ## `validate_config` -/

/-- The dict of required environment variables and their loaded values, in the
insertion order of the source. -/
def credPairs (cid cs tid : String) : List (String × String) :=
  [("GRAPH_CLIENT_ID", cid), ("GRAPH_CLIENT_SECRET", cs), ("GRAPH_TENANT_ID", tid)]

/-- The `missing` comprehension: names whose value is falsy (empty string). -/
def missingNames (cid cs tid : String) : List String :=
  ((credPairs cid cs tid).filter (fun p => p.2 = "")).map (·.1)

/-- Model of `validate_config`: returns `()` when all three credentials are
non-empty, otherwise raises `EnvironmentError` listing every missing name. -/
def validate_config (cid cs tid : String) : Except String Unit :=
  let missing := missingNames cid cs tid
  if missing.isEmpty then .ok ()
  else
    .error ("Missing required environment variable(s): " ++ joinComma missing ++
      "\nSet them in your shell or a .env file before running this script.")

/-! ## `acquire_token` -/

/-- The token-endpoint response document: the fields the script inspects,
each possibly absent. -/
structure TokenResponse where
  access_token : Option String
  error : Option String
  error_description : Option String

/-- Model of `acquire_token` applied to the provider's response document:
returns the access token when the field is present, otherwise raises
`RuntimeError` interpolating `result.get` of the error fields. -/
def acquire_token (result : TokenResponse) : Except String String :=
  match result.access_token with
  | some t => .ok t
  | none =>
      .error ("Authentication failed. Error: " ++ pyStrOpt result.error ++ " — " ++
        pyStrOpt result.error_description)

/-! ## `build_attachment` -/

/-- The local file system as the script observes it: `os.path.isfile`, the
bytes read from a regular file, and the `mimetypes.guess_type` table. -/
structure FS where
  isfile : String → Bool
  content : String → List Nat
  guess_type : String → Option String

/-- Model of `os.path.basename`: the part after the last path separator. -/
def basename (p : String) : String := (p.splitOn "/").getLastD ""

/-- Model of `mime_type or "application/octet-stream"` (Python `or` picks the
default on a falsy — absent or empty — guess). -/
def mimeOrDefault (m : Option String) : String :=
  match m with
  | some s => if s = "" then "application/octet-stream" else s
  | none => "application/octet-stream"

/-- Model of `build_attachment`: raises `FileNotFoundError` unless the path is
a regular file, otherwise returns the Graph `fileAttachment` dict with the
Base64-encoded file content. -/
def build_attachment (fs : FS) (file_path : String) :
    Except String (List (String × Jv)) :=
  if fs.isfile file_path = false then
    .error ("Attachment not found: " ++ file_path)
  else
    let file_name := basename file_path
    let mime_type := mimeOrDefault (fs.guess_type file_path)
    let encoded := String.mk (b64encode (fs.content file_path))
    .ok [("@odata.type", .str "#microsoft.graph.fileAttachment"),
         ("name", .str file_name),
         ("contentType", .str mime_type),
         ("contentBytes", .str encoded)]

/-! ## `build_payload` -/

/-- The duck-typed `RECIPIENT_EMAIL` configuration value: a single address
string or a list of address strings. -/
inductive StrOrList where
  | str (s : String)
  | list (l : List String)

/-- The email-settings configuration block read by `build_payload`. -/
structure Config where
  SENDER_EMAIL : String
  RECIPIENT_EMAIL : StrOrList
  EMAIL_SUBJECT : String
  EMAIL_BODY : String
  EMAIL_BODY_TYPE : String

/-- One `toRecipients` entry for an address. -/
def mkRecipient (addr : String) : Jv :=
  .obj [("emailAddress", .obj [("address", .str addr)])]

/-- The `recipients` conditional expression: a single string is wrapped into a
one-element list, a list is taken as is. -/
def recipientsOf : StrOrList → List String
  | .str s => [s]
  | .list l => l

/-- The outer `sendMail` envelope. -/
structure SendRequest where
  message : List (String × Jv)
  saveToSentItems : Bool

/-- Model of `build_payload`: wraps a single string recipient into a list,
builds the message dict, and adds the `attachments` key only when the
attachment argument is truthy (a non-empty dict). -/
def build_payload (cfg : Config) (attachment : Option (List (String × Jv))) :
    SendRequest :=
  let recipients := recipientsOf cfg.RECIPIENT_EMAIL
  let message : List (String × Jv) :=
    [("subject", .str cfg.EMAIL_SUBJECT),
     ("body", .obj [("contentType", .str cfg.EMAIL_BODY_TYPE),
                    ("content", .str cfg.EMAIL_BODY)]),
     ("toRecipients", .arr (recipients.map mkRecipient))]
  let message :=
    match attachment with
    | none => message
    | some a => if a.isEmpty then message else message ++ [("attachments", .arr [.obj a])]
  ⟨message, true⟩

/-! ## `send_mail` -/

/-- The HTTP response to the `sendMail` POST: status code, the parse result of
`response.json()` (`none` when the body is not JSON), and `response.text`. -/
structure HttpResponse where
  status_code : Nat
  jsonBody : Option Jv
  text : String

/-- The `detail` local of `send_mail`: the parsed JSON body rendered by the
f-string when parsing succeeds, the raw text otherwise. -/
def responseDetail (r : HttpResponse) : String :=
  match r.jsonBody with
  | some j => pyStr j
  | none => r.text

/-- Model of `send_mail` applied to the HTTP response: 202 returns `()`, any
other status raises `requests.HTTPError` with the status code and detail. -/
def send_mail (r : HttpResponse) : Except String Unit :=
  if r.status_code = 202 then .ok ()
  else .error ("Graph API returned " ++ toString r.status_code ++ ": " ++ responseDetail r)

/-! ## Entry point (`__main__`) -/

/-- The Python exceptions the script can raise, with their messages. -/
inductive PyExc where
  | environmentError (msg : String)
  | fileNotFoundError (msg : String)
  | runtimeError (msg : String)
  | httpError (msg : String)

/-- Whether `except EnvironmentError` catches the exception. In Python 3,
`EnvironmentError` is an alias of `OSError` and `FileNotFoundError` is a
subclass of `OSError`, so it catches both. -/
def isEnvironmentError : PyExc → Bool
  | .environmentError _ => true
  | .fileNotFoundError _ => true
  | _ => false

/-- Whether `except FileNotFoundError` catches the exception. -/
def isFileNotFoundError : PyExc → Bool
  | .fileNotFoundError _ => true
  | _ => false

/-- Whether `except RuntimeError` catches the exception. -/
def isRuntimeError : PyExc → Bool
  | .runtimeError _ => true
  | _ => false

/-- Whether `except requests.HTTPError` catches the exception. -/
def isHTTPError : PyExc → Bool
  | .httpError _ => true
  | _ => false

/-- The message carried by an exception. -/
def excMsg : PyExc → String
  | .environmentError m => m
  | .fileNotFoundError m => m
  | .runtimeError m => m
  | .httpError m => m

/-- The `try` body of the entry point: validate, acquire a token, encode the
attachment when `ATTACHMENT_PATH` is truthy, build the payload, send. Each
stage's exception is tagged with the Python class the source raises. -/
def main_run (cid cs tid : String) (tok : TokenResponse)
    (attachmentPath : Option String) (fs : FS) (cfg : Config)
    (resp : HttpResponse) : Except PyExc Unit :=
  match validate_config cid cs tid with
  | .error m => .error (.environmentError m)
  | .ok _ =>
    match acquire_token tok with
    | .error m => .error (.runtimeError m)
    | .ok _token =>
      let attRes : Except PyExc (Option (List (String × Jv))) :=
        match attachmentPath with
        | none => .ok none
        | some p =>
          if p = "" then .ok none
          else
            match build_attachment fs p with
            | .error m => .error (.fileNotFoundError m)
            | .ok d => .ok (some d)
      match attRes with
      | .error e => .error e
      | .ok att =>
        let _payload := build_payload cfg att
        match send_mail resp with
        | .error m => .error (.httpError m)
        | .ok _ => .ok ()

/-- The `except` ladder of the entry point, in source order, returning the
process exit code and the log line emitted (if any). Handlers are tried in
order with Python's subclass-matching semantics. -/
def main_handle : Except PyExc Unit → Nat × Option String
  | .ok _ => (0, none)
  | .error e =>
    if isEnvironmentError e then (1, some ("Configuration error: " ++ excMsg e))
    else if isFileNotFoundError e then (1, some ("Attachment error: " ++ excMsg e))
    else if isRuntimeError e then (1, some ("Authentication error: " ++ excMsg e))
    else if isHTTPError e then (1, some ("Send failed: " ++ excMsg e))
    else (1, none)

/-! ## Helper lemmas about the built payload -/

theorem lookup_toRecipients (cfg : Config) (att : Option (List (String × Jv))) :
    List.lookup "toRecipients" (build_payload cfg att).message =
      some (.arr ((recipientsOf cfg.RECIPIENT_EMAIL).map mkRecipient)) := by
  cases att with
  | none => rfl
  | some a =>
    by_cases h : a.isEmpty <;> simp [build_payload, h, List.lookup]

theorem lookup_attachments_none (cfg : Config) :
    List.lookup "attachments" (build_payload cfg none).message = none := rfl

theorem lookup_attachments_some (cfg : Config) (a : List (String × Jv)) (h : a ≠ []) :
    List.lookup "attachments" (build_payload cfg (some a)).message =
      some (.arr [.obj a]) := by
  have h' : a.isEmpty = false := by
    cases a with
    | nil => exact absurd rfl h
    | cons x xs => rfl
  simp [build_payload, h', List.lookup]

theorem build_payload_some_nil (cfg : Config) :
    build_payload cfg (some []) = build_payload cfg none := rfl

/-! ## Claim theorems -/

/-- C1: for every token-endpoint response, an `access_token` field with value
`T` makes the Acquirer return exactly `T`; without the field it fails with the
authentication error whose message embeds the response's `error` and
`error_description` verbatim. -/
theorem acquire_token_spec (r : TokenResponse) :
    (∀ t, r.access_token = some t → acquire_token r = .ok t) ∧
    (r.access_token = none →
      acquire_token r =
        .error ("Authentication failed. Error: " ++ pyStrOpt r.error ++ " — " ++
          pyStrOpt r.error_description) ∧
      (∀ e m, r.error = some e → acquire_token r = .error m → e.data <:+: m.data) ∧
      (∀ d m, r.error_description = some d → acquire_token r = .error m →
        d.data <:+: m.data)) := by
  constructor
  · intro t ht
    simp [acquire_token, ht]
  · intro hnone
    refine ⟨by simp [acquire_token, hnone], ?_, ?_⟩
    · intro e m he hm
      simp [acquire_token, hnone] at hm
      subst hm
      exact ⟨"Authentication failed. Error: ".data,
        (" — " ++ pyStrOpt r.error_description).data, by simp [strData_append, he, pyStrOpt]⟩
    · intro d m hd hm
      simp [acquire_token, hnone] at hm
      subst hm
      exact ⟨("Authentication failed. Error: " ++ pyStrOpt r.error ++ " — ").data,
        [], by simp [strData_append, hd, pyStrOpt]⟩

/-- C1 witness: concrete error response with both diagnostic fields. -/
theorem acquire_token_spec_witness :
    acquire_token ⟨none, some "invalid_client", some "AADSTS7000215"⟩ =
      .error ("Authentication failed. Error: " ++ pyStrOpt (some "invalid_client") ++
        " — " ++ pyStrOpt (some "AADSTS7000215")) ∧
    "invalid_client".data <:+:
      ("Authentication failed. Error: " ++ pyStrOpt (some "invalid_client") ++
        " — " ++ pyStrOpt (some "AADSTS7000215")).data := by
  refine ⟨((acquire_token_spec ⟨none, some "invalid_client", some "AADSTS7000215"⟩).2
    rfl).1, ?_⟩
  exact ((acquire_token_spec ⟨none, some "invalid_client", some "AADSTS7000215"⟩).2
    rfl).2.1 "invalid_client" _ rfl
    (((acquire_token_spec ⟨none, some "invalid_client", some "AADSTS7000215"⟩).2 rfl).1)

/-- C2: the Submitter succeeds (with no result value) exactly on status 202;
any other status fails with an error carrying the status code and the response
body, the parsed JSON content when parsing succeeds and the raw text
otherwise. -/
theorem send_mail_spec (r : HttpResponse) :
    (send_mail r = .ok () ↔ r.status_code = 202) ∧
    (r.status_code ≠ 202 →
      send_mail r =
        .error ("Graph API returned " ++ toString r.status_code ++ ": " ++
          responseDetail r)) ∧
    (∀ m, send_mail r = .error m →
      (toString r.status_code).data <:+: m.data ∧ (responseDetail r).data <:+: m.data) ∧
    (∀ j, r.jsonBody = some j → responseDetail r = pyStr j) ∧
    (r.jsonBody = none → responseDetail r = r.text) := by
  refine ⟨?_, ?_, ?_, ?_, ?_⟩
  · by_cases h : r.status_code = 202 <;> simp [send_mail, h]
  · intro h
    simp [send_mail, h]
  · intro m hm
    by_cases h : r.status_code = 202
    · simp [send_mail, h] at hm
    · simp [send_mail, h] at hm
      subst hm
      constructor
      · exact ⟨"Graph API returned ".data, (": " ++ responseDetail r).data,
          by simp [strData_append]⟩
      · exact ⟨("Graph API returned " ++ toString r.status_code ++ ": ").data, [],
          by simp [strData_append]⟩
  · intro j hj
    simp [responseDetail, hj]
  · intro hn
    simp [responseDetail, hn]

/-- C2 witness: status 400 with a parsed JSON error body. -/
theorem send_mail_spec_witness :
    send_mail ⟨400, some (.obj [("error", .obj [("message", .str "bad request")])]), ""⟩ =
      .error ("Graph API returned " ++ toString (400 : Nat) ++ ": " ++
        responseDetail
          ⟨400, some (.obj [("error", .obj [("message", .str "bad request")])]), ""⟩) ∧
    responseDetail
        ⟨400, some (.obj [("error", .obj [("message", .str "bad request")])]), ""⟩ =
      pyStr (.obj [("error", .obj [("message", .str "bad request")])]) ∧
    send_mail ⟨202, none, ""⟩ = .ok () := by
  refine ⟨(send_mail_spec _).2.1 (by decide), (send_mail_spec _).2.2.2.1 _ rfl, ?_⟩
  exact (send_mail_spec ⟨202, none, ""⟩).1.mpr rfl

/-- C3: the Validator returns nothing exactly when all three credential fields
are non-empty; otherwise it fails with a message naming every missing field by
name, not only the first one. -/
theorem validate_config_spec (cid cs tid : String) :
    (validate_config cid cs tid = .ok () ↔ ¬(cid = "" ∨ cs = "" ∨ tid = "")) ∧
    ("GRAPH_CLIENT_ID" ∈ missingNames cid cs tid ↔ cid = "") ∧
    ("GRAPH_CLIENT_SECRET" ∈ missingNames cid cs tid ↔ cs = "") ∧
    ("GRAPH_TENANT_ID" ∈ missingNames cid cs tid ↔ tid = "") ∧
    (∀ m, validate_config cid cs tid = .error m →
      ∀ name ∈ missingNames cid cs tid, name.data <:+: m.data) := by
  refine ⟨?_, ?_, ?_, ?_, ?_⟩
  · by_cases h1 : cid = "" <;> by_cases h2 : cs = "" <;> by_cases h3 : tid = "" <;>
      simp [validate_config, missingNames, credPairs, h1, h2, h3]
  · by_cases h1 : cid = "" <;> by_cases h2 : cs = "" <;> by_cases h3 : tid = "" <;>
      simp [missingNames, credPairs, h1, h2, h3]
  · by_cases h1 : cid = "" <;> by_cases h2 : cs = "" <;> by_cases h3 : tid = "" <;>
      simp [missingNames, credPairs, h1, h2, h3]
  · by_cases h1 : cid = "" <;> by_cases h2 : cs = "" <;> by_cases h3 : tid = "" <;>
      simp [missingNames, credPairs, h1, h2, h3]
  · intro m hm name hname
    unfold validate_config at hm
    by_cases h : (missingNames cid cs tid).isEmpty
    · simp [h] at hm
    · simp [h] at hm
      subst hm
      have h1 := infix_of_mem_joinComma _ name hname
      have h2 : (joinComma (missingNames cid cs tid)).data <:+:
          ("Missing required environment variable(s): " ++
            joinComma (missingNames cid cs tid) ++
            "\nSet them in your shell or a .env file before running this script.").data :=
        ⟨"Missing required environment variable(s): ".data,
         "\nSet them in your shell or a .env file before running this script.".data,
         by simp [strData_append]⟩
      exact h1.trans h2

/-- C3 witness: client id and tenant id empty, secret present — the second
missing name also occurs in the error message. -/
theorem validate_config_spec_witness :
    "GRAPH_TENANT_ID".data <:+:
      ("Missing required environment variable(s): GRAPH_CLIENT_ID, GRAPH_TENANT_ID" ++
        "\nSet them in your shell or a .env file before running this script.").data :=
  (validate_config_spec "" "secret" "").2.2.2.2 _ rfl "GRAPH_TENANT_ID"
    (by simp [missingNames, credPairs])

/-- C4: a single string recipient produces exactly the one-element
`toRecipients` list for that address; a list input produces one entry per
address in the same order, duplicates kept. -/
theorem build_payload_recipients_spec (cfg : Config)
    (att : Option (List (String × Jv))) :
    (∀ s, cfg.RECIPIENT_EMAIL = .str s →
      List.lookup "toRecipients" (build_payload cfg att).message =
        some (.arr [mkRecipient s])) ∧
    (∀ l, cfg.RECIPIENT_EMAIL = .list l →
      List.lookup "toRecipients" (build_payload cfg att).message =
        some (.arr (l.map mkRecipient)) ∧
      (l.map mkRecipient).length = l.length ∧
      ∀ i (h : i < l.length),
        (l.map mkRecipient).get ⟨i, by simpa using h⟩ = mkRecipient (l.get ⟨i, h⟩)) := by
  constructor
  · intro s hs
    rw [lookup_toRecipients, hs]
    rfl
  · intro l hl
    refine ⟨?_, by simp, ?_⟩
    · rw [lookup_toRecipients, hl]
      rfl
    · intro i h
      simp

/-- C4 witness: a single string address, and a two-element list with a
duplicate address kept in order. -/
theorem build_payload_recipients_spec_witness :
    List.lookup "toRecipients"
      (build_payload ⟨"reports@yourdomain.com", .str "a@b.com", "Automated Report",
        "Please find the attached report.", "Text"⟩ none).message =
      some (.arr [mkRecipient "a@b.com"]) ∧
    List.lookup "toRecipients"
      (build_payload ⟨"reports@yourdomain.com", .list ["r@d.com", "r@d.com"],
        "Automated Report", "Please find the attached report.", "Text"⟩ none).message =
      some (.arr (["r@d.com", "r@d.com"].map mkRecipient)) :=
  ⟨(build_payload_recipients_spec _ none).1 "a@b.com" rfl,
   ((build_payload_recipients_spec _ none).2 ["r@d.com", "r@d.com"] rfl).1⟩

/-- C5: with no attachment descriptor the message carries no `attachments` key
at all; with a descriptor supplied (a non-empty dict, as `build_attachment`
always produces) the key is present and holds exactly that descriptor. -/
theorem build_payload_attachment_field_spec (cfg : Config) :
    (List.lookup "attachments" (build_payload cfg none).message = none) ∧
    (∀ a, a ≠ [] →
      List.lookup "attachments" (build_payload cfg (some a)).message =
        some (.arr [.obj a])) ∧
    (∀ fs p d, build_attachment fs p = .ok d →
      List.lookup "attachments" (build_payload cfg (some d)).message =
        some (.arr [.obj d])) := by
  refine ⟨lookup_attachments_none cfg, fun a h => lookup_attachments_some cfg a h, ?_⟩
  intro fs p d hd
  unfold build_attachment at hd
  by_cases h : fs.isfile p = false
  · simp [h] at hd
  · simp [h] at hd
    exact lookup_attachments_some cfg d (by simp [← hd])

/-- C5 witness: absent key without a descriptor; present key with a concrete
descriptor. -/
theorem build_payload_attachment_field_spec_witness :
    (List.lookup "attachments"
      (build_payload ⟨"reports@yourdomain.com", .list ["r@d.com"], "Automated Report",
        "Please find the attached report.", "Text"⟩ none).message = none) ∧
    List.lookup "attachments"
      (build_payload ⟨"reports@yourdomain.com", .list ["r@d.com"], "Automated Report",
        "Please find the attached report.", "Text"⟩
        (some [("name", .str "output.xlsx")])).message =
      some (.arr [.obj [("name", .str "output.xlsx")]]) :=
  ⟨(build_payload_attachment_field_spec _).1,
   (build_payload_attachment_field_spec _).2.1 [("name", .str "output.xlsx")]
     (List.cons_ne_nil _ _)⟩

/-- C6: for an existing regular file the Encoder's descriptor has a
`contentBytes` payload whose Base64 decoding reproduces the file's bytes
exactly. -/
theorem build_attachment_roundtrip_spec (fs : FS) (p : String)
    (hfile : fs.isfile p = true) (hbytes : ∀ b ∈ fs.content p, b < 256) :
    ∃ enc : String,
      (∃ d, build_attachment fs p = .ok d ∧
        List.lookup "contentBytes" d = some (.str enc)) ∧
      b64decode enc.data = some (fs.content p) := by
  refine ⟨String.mk (b64encode (fs.content p)),
    ⟨⟨[("@odata.type", .str "#microsoft.graph.fileAttachment"),
       ("name", .str (basename p)),
       ("contentType", .str (mimeOrDefault (fs.guess_type p))),
       ("contentBytes", .str (String.mk (b64encode (fs.content p))))], ?_, rfl⟩, ?_⟩⟩
  · simp [build_attachment, hfile]
  · exact b64decode_b64encode (fs.content p) hbytes

/-- C6 witness: a three-byte file, decoded back from the descriptor. -/
theorem build_attachment_roundtrip_spec_witness :
    ∃ enc : String,
      (∃ d, build_attachment ⟨fun _ => true, fun _ => [0, 255, 10], fun _ => none⟩
          "/reports/output.xlsx" = .ok d ∧
        List.lookup "contentBytes" d = some (.str enc)) ∧
      b64decode enc.data =
        some ((⟨fun _ => true, fun _ => [0, 255, 10], fun _ => none⟩ : FS).content
          "/reports/output.xlsx") :=
  build_attachment_roundtrip_spec ⟨fun _ => true, fun _ => [0, 255, 10], fun _ => none⟩
    "/reports/output.xlsx" rfl (by decide)

/-- C9: the Encoder fails — with the file-not-found error and without touching
the file content — exactly when the path does not reference a regular file;
for a regular file it returns a descriptor. -/
theorem build_attachment_isfile_spec (fs : FS) (p : String) :
    (fs.isfile p = false → build_attachment fs p = .error ("Attachment not found: " ++ p)) ∧
    (fs.isfile p = true → ∃ d, build_attachment fs p = .ok d) ∧
    ((∃ e, build_attachment fs p = .error e) ↔ fs.isfile p = false) := by
  refine ⟨?_, ?_, ?_⟩
  · intro h
    simp [build_attachment, h]
  · intro h
    exact ⟨[("@odata.type", .str "#microsoft.graph.fileAttachment"),
            ("name", .str (basename p)),
            ("contentType", .str (mimeOrDefault (fs.guess_type p))),
            ("contentBytes", .str (String.mk (b64encode (fs.content p))))],
      by simp [build_attachment, h]⟩
  · constructor
    · rintro ⟨e, he⟩
      by_contra hne
      simp [build_attachment, hne] at he
    · intro h
      exact ⟨"Attachment not found: " ++ p, by simp [build_attachment, h]⟩

/-- C9 witness: a path that is not a regular file yields exactly the
file-not-found error. -/
theorem build_attachment_isfile_spec_witness :
    build_attachment ⟨fun _ => false, fun _ => [], fun _ => none⟩ "/missing.txt" =
      .error ("Attachment not found: " ++ "/missing.txt") :=
  (build_attachment_isfile_spec ⟨fun _ => false, fun _ => [], fun _ => none⟩
    "/missing.txt").1 rfl

/-- C8 counterexample: the Builder accepts the empty recipient list and
produces a message whose `toRecipients` list is empty, so the non-empty
invariant is not established for every accepted input. -/
theorem build_payload_empty_recipients_counterexample :
    List.lookup "toRecipients"
      (build_payload ⟨"reports@yourdomain.com", .list [], "Automated Report",
        "Please find the attached report.", "Text"⟩ none).message =
      some (.arr []) := rfl

/-- C8 amended: the recipient list of the built message is non-empty for every
single-string input and every non-empty list input; the Builder performs no
emptiness check, so an empty list input yields an empty recipient list. -/
theorem build_payload_nonempty_recipients_spec (cfg : Config)
    (att : Option (List (String × Jv))) :
    (∀ s, cfg.RECIPIENT_EMAIL = .str s → ∃ rs, rs ≠ [] ∧
      List.lookup "toRecipients" (build_payload cfg att).message = some (.arr rs)) ∧
    (∀ l, cfg.RECIPIENT_EMAIL = .list l → l ≠ [] → ∃ rs, rs ≠ [] ∧
      List.lookup "toRecipients" (build_payload cfg att).message = some (.arr rs)) := by
  constructor
  · intro s hs
    refine ⟨[mkRecipient s], List.cons_ne_nil _ _, ?_⟩
    rw [lookup_toRecipients, hs]
    rfl
  · intro l hl hne
    refine ⟨l.map mkRecipient, by simpa using hne, ?_⟩
    rw [lookup_toRecipients, hl]
    rfl

/-- C8 amended witness: a single-string input gives a non-empty recipient
list. -/
theorem build_payload_nonempty_recipients_spec_witness :
    ∃ rs, rs ≠ [] ∧
      List.lookup "toRecipients"
        (build_payload ⟨"reports@yourdomain.com", .str "a@b.com", "Automated Report",
          "Please find the attached report.", "Text"⟩ none).message =
        some (.arr rs) :=
  (build_payload_nonempty_recipients_spec _ none).1 "a@b.com" rfl

/-- C10: inclusion of `attachments` is decided by Python truthiness of the
argument, not by mere presence — an empty dict is treated exactly like no
attachment and the key is omitted. -/
theorem build_payload_falsy_attachment_spec (cfg : Config) :
    build_payload cfg (some []) = build_payload cfg none ∧
    List.lookup "attachments" (build_payload cfg (some [])).message = none := by
  refine ⟨build_payload_some_nil cfg, ?_⟩
  rw [build_payload_some_nil cfg]
  exact lookup_attachments_none cfg

/-- C7: the spec's exit contract says each of the four error kinds is logged
with a distinguishing message before exit code 1. The code exits 0 on success,
but an attachment-not-found failure is logged as "Configuration error: ..."
because `except EnvironmentError` (an alias of `OSError`, a superclass of
`FileNotFoundError`) precedes the dedicated `except FileNotFoundError`
handler, which is therefore unreachable. -/
theorem main_attachment_error_shadowed :
    main_handle (main_run "id" "secret" "tenant" ⟨some "tok", none, none⟩
        (some "/reports/output.xlsx") ⟨fun _ => false, fun _ => [], fun _ => none⟩
        ⟨"reports@yourdomain.com", .list ["recipient@yourdomain.com"], "Automated Report",
          "Please find the attached report.", "Text"⟩ ⟨202, none, ""⟩) =
      (1, some "Configuration error: Attachment not found: /reports/output.xlsx") ∧
    main_handle (main_run "id" "secret" "tenant" ⟨some "tok", none, none⟩ none
        ⟨fun _ => false, fun _ => [], fun _ => none⟩
        ⟨"reports@yourdomain.com", .list ["recipient@yourdomain.com"], "Automated Report",
          "Please find the attached report.", "Text"⟩ ⟨202, none, ""⟩) =
      (0, none) := ⟨rfl, rfl⟩

end GraphMailSender
